import Mathlib

/-!
Application lifecycle controller: `modules/common/apollo_app.cc`

A shallow embedding of the four functions of `apollo_app.cc`:

* `ApolloApp::SetCallbackThreadNumber`
* `ApolloApp::ExportFlags`
* `ApolloApp::Spin`
* `apollo_app_sigint_handler`

What the functions do to the outside world is recorded in an `Output`: the calls
into the virtual hooks and into the dispatch runtime (`trace`), the log stream
(`log`) and the files written (`files`).  A function either returns, or the
process is terminated by a failed `CHECK`, or the function stays blocked inside
the dispatch runtime; this is its `Outcome`.

The collaborators that are not part of the file (the flag registry, the file
system, the dispatch runtime, the concrete subclass) are parameters: `Env` and
the fields of `ApolloApp`.
-/

namespace apollo.common

/-! ## Data model -/

/-- Severity of a log entry: `AINFO`, `AERROR`, and the entry of a failed `CHECK`. -/
inductive Severity
  | INFO
  | ERROR
  | FATAL
deriving DecidableEq, Repr

/-- One entry of the log stream: what was streamed into `AINFO`, `AERROR` or `CHECK`. -/
structure LogEntry where
  severity : Severity
  message : String
deriving DecidableEq, Repr

/-- Calls that leave `apollo_app.cc`: the virtual hooks of the application
(`Init`, `Start`, `Stop`), the call of `ExportFlags` made by `Spin`, and the
primitives of the dispatch runtime (`ros::AsyncSpinner`, `ros::spin`,
`ros::waitForShutdown`, `ros::shutdown`).  The release of the scoped
`unique_ptr` when `Spin` returns is not recorded. -/
inductive Effect
  | Init
  | Start
  | Stop
  | ExportFlags
  | newAsyncSpinner (thread_count : Nat)
  | spinnerStart
  | rosSpin
  | waitForShutdown
  | rosShutdown
deriving DecidableEq, Repr

/-- Modelled from the spec: the `Status` type of `modules/common/status/status.h`,
which is not among the sources; the spec calls it "a status (ok /
failed-with-message)".  `ok` is the result of `status.ok()`, `text` is what
streaming the status into a log prints. -/
structure Status where
  ok : Bool
  text : String
deriving DecidableEq, Repr

/-- The fields of `gflags::CommandLineFlagInfo` that `ExportFlags` reads. -/
structure CommandLineFlagInfo where
  name : String
  type : String
  description : String
  current_value : String
  default_value : String
deriving DecidableEq, Repr

/-- The state of an `ApolloApp` object as far as `apollo_app.cc` sees it: the
results of the pure virtual `Name()`, `Init()` and `Start()` of the concrete
subclass, and the member `callback_thread_num_`. -/
structure ApolloApp where
  Name : String
  Init : Status
  Start : Status
  callback_thread_num_ : Nat

/-- The surroundings of the process: the flag `FLAGS_log_dir`, the list that
`gflags::GetAllFlags` returns, whether `std::ofstream` can open a given path,
and whether a shutdown request ever reaches the dispatch runtime (`ros::spin()`
and `ros::waitForShutdown()` return exactly then). -/
structure Env where
  FLAGS_log_dir : String
  GetAllFlags : List CommandLineFlagInfo
  can_open : String → Bool
  shutdown : Bool

/-- How a call ends: it returns a value, the process is terminated by a failed
`CHECK`, or the call never comes back from a blocking wait. -/
inductive Outcome (α : Type)
  | returned (a : α)
  | aborted
  | blocked
deriving DecidableEq, Repr

/-- Everything a call did to the outside world, each channel in program order. -/
structure Output where
  trace : List Effect
  log : List LogEntry
  files : List (String × String)
deriving DecidableEq, Repr

/-- Nothing happened. -/
def Output.nil : Output := ⟨[], [], []⟩

/-- First `a`, then `b`. -/
def Output.append (a b : Output) : Output :=
  ⟨a.trace ++ b.trace, a.log ++ b.log, a.files ++ b.files⟩

/-- A computation of `apollo_app.cc`: how it ended and what it did until then. -/
structure Proc (α : Type) where
  outcome : Outcome α
  out : Output

/-- Sequencing: what follows a call runs only if the call returned. -/
def Proc.bind {α β : Type} (x : Proc α) (f : α → Proc β) : Proc β :=
  match x.outcome with
  | .returned a => ⟨(f a).outcome, x.out.append (f a).out⟩
  | .aborted => ⟨.aborted, x.out⟩
  | .blocked => ⟨.blocked, x.out⟩

instance : Monad Proc where
  pure a := ⟨.returned a, Output.nil⟩
  bind := Proc.bind

/-- A call that leaves the file and comes back. -/
def call (e : Effect) : Proc Unit := ⟨.returned (), ⟨[e], [], []⟩⟩

/-- A call into the dispatch runtime that comes back only once shutdown was requested. -/
def blockingCall (env : Env) (e : Effect) : Proc Unit :=
  ⟨if env.shutdown then .returned () else .blocked, ⟨[e], [], []⟩⟩

/-- One streamed log statement (`AINFO << ...`, `AERROR << ...`). -/
def logMsg (s : Severity) (m : String) : Proc Unit := ⟨.returned (), ⟨[], [⟨s, m⟩], []⟩⟩

/-- A failed `CHECK(...) << m`: the message is logged and the process terminated. -/
def checkFailed {α : Type} (m : String) : Proc α := ⟨.aborted, ⟨[], [⟨.FATAL, m⟩], []⟩⟩

/-- Closing a successfully opened `std::ofstream`: the file holds what was streamed. -/
def writeFile (path content : String) : Proc Unit := ⟨.returned (), ⟨[], [], [(path, content)]⟩⟩

/-! ## `ApolloApp::SetCallbackThreadNumber` -/

/-- Source lines 36-39.  `CHECK_GE(callback_thread_num, 1)` terminates the process
when it fails; the object is returned as it is at that moment. -/
def SetCallbackThreadNumber (app : ApolloApp) (callback_thread_num : Nat) :
    Outcome Unit × ApolloApp :=
  if callback_thread_num ≥ 1 then
    (.returned (), { app with callback_thread_num_ := callback_thread_num })
  else
    (.aborted, app)

/-- A sequence of `SetCallbackThreadNumber` calls on one object; a call that
terminates the process ends the sequence. -/
def SetCallbackThreadNumbers (app : ApolloApp) : List Nat → Outcome Unit × ApolloApp
  | [] => (.returned (), app)
  | n :: ns =>
    match SetCallbackThreadNumber app n with
    | (.returned (), app1) => SetCallbackThreadNumbers app1 ns
    | r => r

/-! ## `ApolloApp::ExportFlags` -/

/-- The body of the loop of source lines 54-66: what one iteration streams into `fout`. -/
def exportFlag (fout : String) (flag : CommandLineFlagInfo) : String :=
  fout ++ "# " ++ flag.type ++ ", default=" ++ flag.default_value ++ "\n"
    ++ "# " ++ flag.description ++ "\n"
    ++ "--" ++ flag.name ++ "=" ++ flag.current_value ++ "\n"
    ++ "\n"

/-- The path built by `util::StrCat(FLAGS_log_dir, "/", Name(), ".flags")`. -/
def export_file (env : Env) (app : ApolloApp) : String :=
  env.FLAGS_log_dir ++ "/" ++ app.Name ++ ".flags"

/-- Source lines 41-67. -/
def ExportFlags (env : Env) (app : ApolloApp) : Proc Unit :=
  if env.can_open (export_file env app) = false then
    checkFailed ("Cannot open file " ++ export_file env app)
  else
    let flags := env.GetAllFlags
    writeFile (export_file env app) (flags.foldl exportFlag "")

/-! ## `ApolloApp::Spin` -/

/-- Source lines 69-102.  `spinner` is `some n` when the `unique_ptr` holds an
`AsyncSpinner` of `n` threads and `none` when it is empty. -/
def Spin (env : Env) (app : ApolloApp) : Proc Int := do
  call .Init
  let status := app.Init
  if status.ok = false then
    logMsg .ERROR (app.Name ++ " Init failed: " ++ status.text)
    return -1
  let spinner : Option Nat :=
    if app.callback_thread_num_ > 1 then some app.callback_thread_num_ else none
  match spinner with
  | some thread_count => call (.newAsyncSpinner thread_count)
  | none => pure ()
  call .Start
  let status := app.Start
  if status.ok = false then
    logMsg .ERROR (app.Name ++ " Start failed: " ++ status.text)
    return -2
  call .ExportFlags
  ExportFlags env app
  match spinner with
  | some _ => call .spinnerStart
  | none => blockingCall env .rosSpin
  blockingCall env .waitForShutdown
  call .Stop
  logMsg .INFO (app.Name ++ " exited.")
  return 0

/-! ## `apollo_app_sigint_handler` -/

/-- The value of `SIGINT` in `<csignal>`. -/
def SIGINT : Int := 2

/-- Source lines 104-115.  The function-local `static bool is_stopping` is
passed in and returned as the result of the computation. -/
def apollo_app_sigint_handler (is_stopping : Bool) (signal_num : Int) : Proc Bool := do
  logMsg .INFO ("Received signal: " ++ toString signal_num)
  if signal_num ≠ SIGINT then
    return is_stopping
  if is_stopping then
    return is_stopping
  let is_stopping := true
  call .rosShutdown
  return is_stopping

/-- A sequence of signals delivered to the handler one after the other, starting
with the given value of the latch: the latch at the end and everything the
handler calls did. -/
def deliver (is_stopping : Bool) : List Int → Bool × Output
  | [] => (is_stopping, Output.nil)
  | s :: rest =>
    let r := apollo_app_sigint_handler is_stopping s
    match r.outcome with
    | .returned b => ((deliver b rest).1, r.out.append (deliver b rest).2)
    | _ => (is_stopping, r.out)

/-- The latch after one call of the handler. -/
def latchAfter (is_stopping : Bool) (signal_num : Int) : Bool :=
  match (apollo_app_sigint_handler is_stopping signal_num).outcome with
  | .returned b => b
  | _ => is_stopping

/-- The values the latch takes while a sequence of signals is delivered: the
value before the first call, then the value after each call. -/
def latchHistory (is_stopping : Bool) : List Int → List Bool
  | [] => [is_stopping]
  | s :: rest => is_stopping :: latchHistory (latchAfter is_stopping s) rest

/-- The number of places where a sequence of latch values changes. -/
def transitions : List Bool → Nat
  | a :: b :: rest => (if a = b then 0 else 1) + transitions (b :: rest)
  | _ => 0

/-! ## The flags file as the specification describes it -/

/-- The block of one flag as the specification words it:
"# <type>, default=<default_value>\n# <description>\n--<name>=<current_value>\n\n". -/
def flagBlock (flag : CommandLineFlagInfo) : String :=
  "# " ++ flag.type ++ ", default=" ++ flag.default_value ++ "\n# " ++ flag.description
    ++ "\n--" ++ flag.name ++ "=" ++ flag.current_value ++ "\n\n"

/-- The concatenation of one block per flag, in the order of the list. -/
def flagBlocks : List CommandLineFlagInfo → String
  | [] => ""
  | flag :: rest => flagBlock flag ++ flagBlocks rest

/-- The lines of a text: every newline ends a line, and characters after the
last newline form a last line. -/
def textLines : List Char → List (List Char)
  | [] => []
  | c :: cs =>
    if c = '\n' then [] :: textLines cs
    else
      match textLines cs with
      | [] => [[c]]
      | l :: ls => (c :: l) :: ls

/-- No newline character occurs in the string. -/
def singleLine (s : String) : Prop := '\n' ∉ s.data

instance (s : String) : Decidable (singleLine s) :=
  inferInstanceAs (Decidable ('\n' ∉ s.data))

/-- None of the five fields of the flag holds a newline character. -/
def CommandLineFlagInfo.singleLine (flag : CommandLineFlagInfo) : Prop :=
  apollo.common.singleLine flag.name ∧ apollo.common.singleLine flag.type ∧
    apollo.common.singleLine flag.description ∧ apollo.common.singleLine flag.current_value ∧
    apollo.common.singleLine flag.default_value

instance (flag : CommandLineFlagInfo) : Decidable flag.singleLine := by
  unfold CommandLineFlagInfo.singleLine
  infer_instance

/-- The three lines and the blank line the specification gives for one flag. -/
def flagLines (flag : CommandLineFlagInfo) : List (List Char) :=
  [("# " ++ flag.type ++ ", default=" ++ flag.default_value).data,
   ("# " ++ flag.description).data,
   ("--" ++ flag.name ++ "=" ++ flag.current_value).data,
   []]

/-! ## The scenario of the specification -/

/-- An application named "planner" whose hooks succeed, with the default of one callback thread. -/
def planner : ApolloApp := ⟨"planner", ⟨true, "OK"⟩, ⟨true, "OK"⟩, 1⟩

/-- The two registered flags of the scenario, in registration order. -/
def plannerFlags : List CommandLineFlagInfo :=
  [⟨"max_speed", "double", "cap speed", "45.0", "30.0"⟩,
   ⟨"debug", "bool", "enable debug", "true", "false"⟩]

/-- Log directory "/tmp/logs", every file can be opened, a shutdown request arrives. -/
def plannerEnv : Env := ⟨"/tmp/logs", plannerFlags, fun _ => true, true⟩

/-! ## Shared lemmas -/

theorem handler_eq (b : Bool) (s : Int) :
    apollo_app_sigint_handler b s =
      ⟨.returned (b || decide (s = SIGINT)),
        ⟨if s = SIGINT ∧ b = false then [.rosShutdown] else [],
         [⟨.INFO, "Received signal: " ++ toString s⟩], []⟩⟩ := by
  by_cases hs : s = SIGINT <;> cases b <;>
    simp [apollo_app_sigint_handler, hs, bind, Proc.bind, call, logMsg, pure, Output.append,
      Output.nil]

theorem deliver_true (sigs : List Int) :
    (deliver true sigs).1 = true ∧ (deliver true sigs).2.trace = [] := by
  induction sigs with
  | nil => simp [deliver, Output.nil]
  | cons s rest ih => simp [deliver, handler_eq, Output.append, ih]

theorem deliver_false (sigs : List Int) :
    (deliver false sigs).1 = decide (SIGINT ∈ sigs) ∧
      (deliver false sigs).2.trace = if SIGINT ∈ sigs then [.rosShutdown] else [] := by
  induction sigs with
  | nil => simp [deliver, Output.nil]
  | cons s rest ih =>
    by_cases hs : s = SIGINT
    · simp [deliver, handler_eq, Output.append, hs, deliver_true]
    · have hs2 : ¬ SIGINT = s := fun h => hs h.symm
      simp [deliver, handler_eq, Output.append, hs, hs2, ih]

theorem latchAfter_eq (b : Bool) (s : Int) : latchAfter b s = (b || decide (s = SIGINT)) := by
  simp [latchAfter, handler_eq]

theorem transitions_latchHistory_true (sigs : List Int) :
    transitions (latchHistory true sigs) = 0 ∧ ∃ t, latchHistory true sigs = true :: t := by
  induction sigs with
  | nil => simp [latchHistory, transitions]
  | cons s rest ih =>
    obtain ⟨h0, t, ht⟩ := ih
    refine ⟨?_, _, rfl⟩
    simp only [latchHistory, latchAfter_eq, Bool.true_or]
    rw [ht] at h0 ⊢
    simpa [transitions] using h0

theorem transitions_latchHistory_false (sigs : List Int) :
    transitions (latchHistory false sigs) ≤ 1 ∧ ∃ t, latchHistory false sigs = false :: t := by
  induction sigs with
  | nil => simp [latchHistory, transitions]
  | cons s rest ih =>
    refine ⟨?_, _, rfl⟩
    simp only [latchHistory, latchAfter_eq, Bool.false_or]
    by_cases hs : s = SIGINT
    · obtain ⟨h0, t, ht⟩ := transitions_latchHistory_true rest
      simp only [hs, decide_True]
      rw [ht] at h0 ⊢
      simp [transitions, h0]
    · obtain ⟨h0, t, ht⟩ := ih
      simp only [hs, decide_False]
      rw [ht] at h0 ⊢
      simpa [transitions] using h0

theorem getLast_latchHistory (b : Bool) (sigs : List Int) :
    (latchHistory b sigs).getLast? = some (deliver b sigs).1 := by
  induction sigs generalizing b with
  | nil => simp [latchHistory, deliver]
  | cons s rest ih =>
    obtain ⟨x, t, ht⟩ : ∃ x t, latchHistory (latchAfter b s) rest = x :: t := by
      cases rest <;> exact ⟨_, _, rfl⟩
    have h := ih (latchAfter b s)
    simp only [latchHistory, deliver, handler_eq]
    rw [ht] at h ⊢
    rw [List.getLast?_cons_cons, h, latchAfter_eq]

theorem exportFlag_eq (fout : String) (flag : CommandLineFlagInfo) :
    exportFlag fout flag = fout ++ flagBlock flag := by
  apply String.ext
  simp only [exportFlag, flagBlock, String.data_append, List.append_assoc]
  rfl

theorem foldl_exportFlag (flags : List CommandLineFlagInfo) :
    ∀ fout : String, flags.foldl exportFlag fout = fout ++ flagBlocks flags := by
  induction flags with
  | nil => intro fout; simp [flagBlocks]
  | cons flag rest ih =>
    intro fout
    rw [List.foldl_cons, ih, exportFlag_eq, flagBlocks, String.append_assoc]

theorem ExportFlags_eq (env : Env) (app : ApolloApp)
    (ho : env.can_open (export_file env app) = true) :
    ExportFlags env app =
      ⟨.returned (), ⟨[], [], [(export_file env app, flagBlocks env.GetAllFlags)]⟩⟩ := by
  simp [ExportFlags, ho, writeFile, foldl_exportFlag]

theorem textLines_append_newline (l rest : List Char) (h : '\n' ∉ l) :
    textLines (l ++ '\n' :: rest) = l :: textLines rest := by
  induction l with
  | nil => simp [textLines]
  | cons c l ih =>
    have hc : c ≠ '\n' := fun e => h (by simp [e])
    have hl : '\n' ∉ l := fun e => h (by simp [e])
    simp [textLines, hc, ih hl]

theorem textLines_flagBlock (flag : CommandLineFlagInfo) (h : flag.singleLine)
    (rest : List Char) :
    textLines ((flagBlock flag).data ++ rest) = flagLines flag ++ textLines rest := by
  obtain ⟨hn, ht, hd, hc, hv⟩ := h
  unfold singleLine at hn ht hd hc hv
  have e : (flagBlock flag).data ++ rest =
      ("# " ++ flag.type ++ ", default=" ++ flag.default_value).data ++ '\n' ::
        (("# " ++ flag.description).data ++ '\n' ::
          (("--" ++ flag.name ++ "=" ++ flag.current_value).data ++ '\n' ::
            ([] ++ '\n' :: rest))) := by
    simp only [flagBlock, String.data_append, List.append_assoc]
    rfl
  rw [e, textLines_append_newline, textLines_append_newline, textLines_append_newline,
    textLines_append_newline]
  · rfl
  · simp
  · simp only [String.data_append, List.mem_append, not_or]
    exact ⟨⟨⟨by decide, hn⟩, by decide⟩, hc⟩
  · simp only [String.data_append, List.mem_append, not_or]
    exact ⟨by decide, hd⟩
  · simp only [String.data_append, List.mem_append, not_or]
    exact ⟨⟨⟨by decide, ht⟩, by decide⟩, hv⟩

theorem textLines_flagBlocks (flags : List CommandLineFlagInfo)
    (h : ∀ flag ∈ flags, flag.singleLine) :
    textLines (flagBlocks flags).data = flags.flatMap flagLines := by
  induction flags with
  | nil => simp [flagBlocks, textLines]
  | cons flag rest ih =>
    rw [flagBlocks, String.data_append, textLines_flagBlock flag (h flag (by simp)),
      ih (fun f hf => h f (by simp [hf])), List.flatMap_cons]

theorem length_flatMap_flagLines (flags : List CommandLineFlagInfo) :
    (flags.flatMap flagLines).length = 4 * flags.length := by
  induction flags with
  | nil => simp
  | cons flag rest ih =>
    rw [List.flatMap_cons, List.length_append, ih, List.length_cons]
    simp [flagLines]
    omega

theorem Spin_Init_failed_eq (env : Env) (app : ApolloApp) (h : app.Init.ok = false) :
    Spin env app =
      ⟨.returned (-1), ⟨[.Init], [⟨.ERROR, app.Name ++ " Init failed: " ++ app.Init.text⟩], []⟩⟩ := by
  simp [Spin, h, bind, Proc.bind, call, logMsg, pure, Output.append, Output.nil]

theorem Spin_Start_failed_eq (env : Env) (app : ApolloApp) (h1 : app.Init.ok = true)
    (h2 : app.Start.ok = false) :
    Spin env app =
      ⟨.returned (-2),
        ⟨[.Init] ++ (if app.callback_thread_num_ > 1
            then [.newAsyncSpinner app.callback_thread_num_] else []) ++ [.Start],
         [⟨.ERROR, app.Name ++ " Start failed: " ++ app.Start.text⟩], []⟩⟩ := by
  by_cases hn : app.callback_thread_num_ > 1 <;>
    simp [Spin, h1, h2, hn, bind, Proc.bind, call, logMsg, pure, Output.append, Output.nil]

theorem Spin_started_eq (env : Env) (app : ApolloApp) (h1 : app.Init.ok = true)
    (h2 : app.Start.ok = true) :
    Spin env app =
      if env.can_open (export_file env app) = false then
        ⟨.aborted,
          ⟨[.Init] ++ (if app.callback_thread_num_ > 1
              then [.newAsyncSpinner app.callback_thread_num_] else []) ++ [.Start, .ExportFlags],
           [⟨.FATAL, "Cannot open file " ++ export_file env app⟩], []⟩⟩
      else if env.shutdown = false then
        ⟨.blocked,
          ⟨[.Init] ++ (if app.callback_thread_num_ > 1
              then [.newAsyncSpinner app.callback_thread_num_, .Start, .ExportFlags,
                .spinnerStart, .waitForShutdown]
              else [.Start, .ExportFlags, .rosSpin]),
           [], [(export_file env app, env.GetAllFlags.foldl exportFlag "")]⟩⟩
      else
        ⟨.returned 0,
          ⟨[.Init] ++ (if app.callback_thread_num_ > 1
              then [.newAsyncSpinner app.callback_thread_num_] else []) ++
            [.Start, .ExportFlags,
              if app.callback_thread_num_ > 1 then .spinnerStart else .rosSpin,
              .waitForShutdown, .Stop],
           [⟨.INFO, app.Name ++ " exited."⟩],
           [(export_file env app, env.GetAllFlags.foldl exportFlag "")]⟩⟩ := by
  by_cases hn : app.callback_thread_num_ > 1 <;>
  by_cases ho : env.can_open (export_file env app) = false <;>
  by_cases hs : env.shutdown = false <;>
    simp [Spin, ExportFlags, h1, h2, hn, ho, hs, bind, Proc.bind, call, blockingCall, logMsg,
      checkFailed, writeFile, pure, Output.append, Output.nil]


theorem SetCallbackThreadNumbers_ge_one (ns : List Nat) :
    ∀ app : ApolloApp, 1 ≤ app.callback_thread_num_ →
      1 ≤ (SetCallbackThreadNumbers app ns).2.callback_thread_num_ := by
  induction ns with
  | nil => intro app h; simpa [SetCallbackThreadNumbers] using h
  | cons n ns ih =>
    intro app h
    by_cases hn : n ≥ 1
    · simp only [SetCallbackThreadNumbers, SetCallbackThreadNumber, hn, if_true]
      exact ih _ hn
    · simp only [SetCallbackThreadNumbers, SetCallbackThreadNumber, hn, if_false]
      exact h

/-! ## The signal handler -/

/-- C7: delivering SIGINT twice in succession, starting from the latch value
false, issues exactly one shutdown request; and for every finite sequence of
signal numbers delivered to the handler, the number of shutdown requests is 1
if the sequence contains SIGINT and 0 otherwise. -/
theorem sigint_handler_single_shutdown_request :
    (deliver false [SIGINT, SIGINT]).2.trace.count Effect.rosShutdown = 1 ∧
      ∀ sigs : List Int,
        (deliver false sigs).2.trace.count Effect.rosShutdown =
          if SIGINT ∈ sigs then 1 else 0 := by
  have key : ∀ sigs : List Int,
      (deliver false sigs).2.trace.count Effect.rosShutdown =
        if SIGINT ∈ sigs then 1 else 0 := by
    intro sigs
    rw [(deliver_false sigs).2]
    split <;> simp
  exact ⟨by rw [key]; simp, key⟩

/-- C8: for every signal number other than SIGINT and every value of the latch,
the handler returns, emits exactly one log entry, which carries the signal
number, leaves the latch as it was, and issues no shutdown request (it makes no
call into the dispatch runtime at all). -/
theorem sigint_handler_other_signal (s : Int) (is_stopping : Bool) (h : s ≠ SIGINT) :
    (apollo_app_sigint_handler is_stopping s).outcome = .returned is_stopping ∧
      (apollo_app_sigint_handler is_stopping s).out.log =
        [⟨.INFO, "Received signal: " ++ toString s⟩] ∧
      (apollo_app_sigint_handler is_stopping s).out.trace = [] ∧
      (apollo_app_sigint_handler is_stopping s).out.trace.count Effect.rosShutdown = 0 := by
  simp [handler_eq, h]

/-- Witness of C8: signal 15 delivered while the latch is false. -/
theorem sigint_handler_other_signal_witness :
    (15 : Int) ≠ SIGINT ∧
      (apollo_app_sigint_handler false 15).outcome = .returned false ∧
      (apollo_app_sigint_handler false 15).out.log =
        [⟨.INFO, "Received signal: " ++ toString (15 : Int)⟩] ∧
      (apollo_app_sigint_handler false 15).out.trace = [] ∧
      (apollo_app_sigint_handler false 15).out.trace.count Effect.rosShutdown = 0 :=
  ⟨by decide, sigint_handler_other_signal 15 false (by decide)⟩

/-- C10: one call of the handler always returns and never changes the latch from
true to false; it changes the latch exactly when the signal is SIGINT and the
latch was false, and it issues a shutdown request in exactly that case (one
request, otherwise none).  Hence, for every sequence of signals delivered
starting from the latch value false, the latch changes at most once along the
way, and at the end it is true iff exactly one shutdown request was issued and
false iff none was. -/
theorem shutdown_latch_monotone :
    (∀ (is_stopping : Bool) (s : Int),
      (apollo_app_sigint_handler is_stopping s).outcome =
          .returned (latchAfter is_stopping s) ∧
        (is_stopping = true → latchAfter is_stopping s = true) ∧
        (latchAfter is_stopping s ≠ is_stopping ↔ (s = SIGINT ∧ is_stopping = false)) ∧
        (apollo_app_sigint_handler is_stopping s).out.trace.count Effect.rosShutdown =
          if s = SIGINT ∧ is_stopping = false then 1 else 0) ∧
    (∀ sigs : List Int,
      transitions (latchHistory false sigs) ≤ 1 ∧
        (latchHistory false sigs).getLast? = some (deliver false sigs).1 ∧
        ((deliver false sigs).1 = true ↔
          (deliver false sigs).2.trace.count Effect.rosShutdown = 1) ∧
        ((deliver false sigs).1 = false ↔
          (deliver false sigs).2.trace.count Effect.rosShutdown = 0)) := by
  constructor
  · intro b s
    refine ⟨by simp [latchAfter_eq, handler_eq], fun h => by simp [latchAfter_eq, h], ?_, ?_⟩
    · cases b <;> simp [latchAfter_eq]
    · rw [handler_eq]
      split <;> simp
  · intro sigs
    refine ⟨(transitions_latchHistory_false sigs).1, getLast_latchHistory false sigs, ?_, ?_⟩
    · rw [(deliver_false sigs).1, (deliver_false sigs).2]
      by_cases h : SIGINT ∈ sigs <;> simp [h]
    · rw [(deliver_false sigs).1, (deliver_false sigs).2]
      by_cases h : SIGINT ∈ sigs <;> simp [h]

/-- Witness of C10: the signals 2, 15, 2 delivered from the initial latch value. -/
theorem shutdown_latch_monotone_witness :
    latchHistory false [2, 15, 2] = [false, true, true, true] ∧
      transitions (latchHistory false [2, 15, 2]) ≤ 1 ∧
      (latchAfter true SIGINT = true) :=
  ⟨by decide, (shutdown_latch_monotone.2 [2, 15, 2]).1,
    (shutdown_latch_monotone.1 true SIGINT).2.1 rfl⟩


/-! ## `SetCallbackThreadNumber` -/

/-- C6: for every 32-bit unsigned n with n >= 1, `SetCallbackThreadNumber(n)`
returns and leaves the stored callback thread count equal to n (and the rest of
the object as it was); for n = 0 the `CHECK` terminates the process and the
object, the stored count included, is as before the call, so the value is not
clamped to 1.  Consequently, starting from a count >= 1, the count is >= 1 after
every sequence of calls, whether the sequence runs to its end or is cut short
by a failed `CHECK`. -/
theorem SetCallbackThreadNumber_contract (app : ApolloApp) :
    (∀ n : Nat, 1 ≤ n → n < 2 ^ 32 →
      SetCallbackThreadNumber app n =
        (.returned (), { app with callback_thread_num_ := n })) ∧
    SetCallbackThreadNumber app 0 = (.aborted, app) ∧
    (1 ≤ app.callback_thread_num_ →
      ∀ ns : List Nat, 1 ≤ (SetCallbackThreadNumbers app ns).2.callback_thread_num_) := by
  refine ⟨?_, by simp [SetCallbackThreadNumber], fun h ns => SetCallbackThreadNumbers_ge_one ns app h⟩
  intro n hn _
  simp [SetCallbackThreadNumber, hn]

/-- Witness of C6: the count 4 set on the planner application, and the calls
with 3, 0, 5 in a row (the second one fails its `CHECK`). -/
theorem SetCallbackThreadNumber_contract_witness :
    SetCallbackThreadNumber planner 4 =
        (.returned (), { planner with callback_thread_num_ := 4 }) ∧
      (SetCallbackThreadNumbers planner [3, 0, 5]).1 = .aborted ∧
      (SetCallbackThreadNumbers planner [3, 0, 5]).2.callback_thread_num_ = 3 ∧
      1 ≤ (SetCallbackThreadNumbers planner [3, 0, 5]).2.callback_thread_num_ :=
  ⟨(SetCallbackThreadNumber_contract planner).1 4 (by decide) (by decide), by decide, by decide,
    (SetCallbackThreadNumber_contract planner).2.2 (by decide) [3, 0, 5]⟩

/-! ## `Spin` -/

/-- C1: when `Init` returns a non-ok status, whatever the callback thread count,
`Spin` returns exactly -1; `Init` is the only call it makes: no `Start`, no
`Stop`, no `ExportFlags` (and no file is written), no construction or start of
an asynchronous dispatcher, no entry into the dispatch loop and none into the
shutdown wait. -/
theorem Spin_Init_failed (env : Env) (app : ApolloApp) (h : app.Init.ok = false) :
    (Spin env app).outcome = .returned (-1) ∧
      (Spin env app).out.trace = [.Init] ∧
      Effect.Start ∉ (Spin env app).out.trace ∧
      Effect.Stop ∉ (Spin env app).out.trace ∧
      Effect.ExportFlags ∉ (Spin env app).out.trace ∧
      (∀ n, Effect.newAsyncSpinner n ∉ (Spin env app).out.trace) ∧
      Effect.spinnerStart ∉ (Spin env app).out.trace ∧
      Effect.rosSpin ∉ (Spin env app).out.trace ∧
      Effect.waitForShutdown ∉ (Spin env app).out.trace ∧
      (Spin env app).out.files = [] := by
  rw [Spin_Init_failed_eq env app h]
  simp

/-- Witness of C1: the planner application with a failing `Init` and 4 callback threads. -/
theorem Spin_Init_failed_witness :
    (Spin plannerEnv ⟨"planner", ⟨false, "no map"⟩, ⟨true, "OK"⟩, 4⟩).outcome = .returned (-1) ∧
      (Spin plannerEnv ⟨"planner", ⟨false, "no map"⟩, ⟨true, "OK"⟩, 4⟩).out.trace = [.Init] :=
  ⟨(Spin_Init_failed plannerEnv ⟨"planner", ⟨false, "no map"⟩, ⟨true, "OK"⟩, 4⟩ rfl).1,
    (Spin_Init_failed plannerEnv ⟨"planner", ⟨false, "no map"⟩, ⟨true, "OK"⟩, 4⟩ rfl).2.1⟩

/-- C2: when `Init` returns ok and `Start` returns a non-ok status, `Spin` returns
exactly -2.  Its calls are `Init`, then the construction of the asynchronous
dispatcher when the callback thread count is > 1, then `Start`: `Init` is
called exactly once and before `Start`, and there is no `Stop` (nothing undoes
`Init`), no `ExportFlags` (and no file is written), no start of the dispatcher,
no entry into the dispatch loop and none into the shutdown wait. -/
theorem Spin_Start_failed (env : Env) (app : ApolloApp) (h1 : app.Init.ok = true)
    (h2 : app.Start.ok = false) :
    (Spin env app).outcome = .returned (-2) ∧
      (Spin env app).out.trace =
        [.Init] ++ (if app.callback_thread_num_ > 1
          then [.newAsyncSpinner app.callback_thread_num_] else []) ++ [.Start] ∧
      (Spin env app).out.trace.count Effect.Init = 1 ∧
      (Spin env app).out.trace.count Effect.Start = 1 ∧
      List.Sublist [Effect.Init, Effect.Start] (Spin env app).out.trace ∧
      Effect.Stop ∉ (Spin env app).out.trace ∧
      Effect.ExportFlags ∉ (Spin env app).out.trace ∧
      Effect.spinnerStart ∉ (Spin env app).out.trace ∧
      Effect.rosSpin ∉ (Spin env app).out.trace ∧
      Effect.waitForShutdown ∉ (Spin env app).out.trace ∧
      (Spin env app).out.files = [] := by
  rw [Spin_Start_failed_eq env app h1 h2]
  by_cases hn : app.callback_thread_num_ > 1 <;> simp [hn]

/-- Witness of C2: the planner application with a failing `Start` and 4 callback threads. -/
theorem Spin_Start_failed_witness :
    (Spin plannerEnv ⟨"planner", ⟨true, "OK"⟩, ⟨false, "no route"⟩, 4⟩).outcome = .returned (-2) ∧
      (Spin plannerEnv ⟨"planner", ⟨true, "OK"⟩, ⟨false, "no route"⟩, 4⟩).out.trace =
        [.Init, .newAsyncSpinner 4, .Start] :=
  ⟨(Spin_Start_failed plannerEnv ⟨"planner", ⟨true, "OK"⟩, ⟨false, "no route"⟩, 4⟩ rfl rfl).1,
    (Spin_Start_failed plannerEnv ⟨"planner", ⟨true, "OK"⟩, ⟨false, "no route"⟩, 4⟩ rfl rfl).2.1⟩


/-- C3 (amended): when `Init` and `Start` both return ok, the flags file can be
opened and a shutdown request reaches the dispatch runtime, `Spin` returns 0
and its calls are exactly, in this order: `Init`, the construction of the
asynchronous dispatcher when the callback thread count is > 1, `Start`,
`ExportFlags`, the dispatch step (start of the asynchronous dispatcher when the
count is > 1, the blocking single-threaded spin otherwise), the wait for
shutdown, `Stop`.  Each of `Init`, `Start`, `ExportFlags` and `Stop` occurs
exactly once, `ExportFlags` comes before the wait and `Stop` after it. -/
theorem Spin_success (env : Env) (app : ApolloApp) (h1 : app.Init.ok = true)
    (h2 : app.Start.ok = true) (ho : env.can_open (export_file env app) = true)
    (hs : env.shutdown = true) :
    (Spin env app).outcome = .returned 0 ∧
      (Spin env app).out.trace =
        [.Init] ++ (if app.callback_thread_num_ > 1
          then [.newAsyncSpinner app.callback_thread_num_] else []) ++
        [.Start, .ExportFlags,
          if app.callback_thread_num_ > 1 then .spinnerStart else .rosSpin,
          .waitForShutdown, .Stop] ∧
      (Spin env app).out.trace.count Effect.Init = 1 ∧
      (Spin env app).out.trace.count Effect.Start = 1 ∧
      (Spin env app).out.trace.count Effect.ExportFlags = 1 ∧
      (Spin env app).out.trace.count Effect.waitForShutdown = 1 ∧
      (Spin env app).out.trace.count Effect.Stop = 1 ∧
      List.Sublist [Effect.Init, Effect.Start, Effect.ExportFlags, Effect.waitForShutdown,
        Effect.Stop] (Spin env app).out.trace := by
  rw [Spin_started_eq env app h1 h2]
  by_cases hn : app.callback_thread_num_ > 1 <;> simp [hn, ho, hs]

/-- Witness of C3: the planner scenario, once with one callback thread and once with four. -/
theorem Spin_success_witness :
    (Spin plannerEnv planner).outcome = .returned 0 ∧
      (Spin plannerEnv planner).out.trace =
        [.Init, .Start, .ExportFlags, .rosSpin, .waitForShutdown, .Stop] ∧
      (Spin plannerEnv ⟨"planner", ⟨true, "OK"⟩, ⟨true, "OK"⟩, 4⟩).out.trace =
        [.Init, .newAsyncSpinner 4, .Start, .ExportFlags, .spinnerStart, .waitForShutdown,
          .Stop] :=
  ⟨(Spin_success plannerEnv planner rfl rfl rfl rfl).1,
    (Spin_success plannerEnv planner rfl rfl rfl rfl).2.1,
    (Spin_success plannerEnv ⟨"planner", ⟨true, "OK"⟩, ⟨true, "OK"⟩, 4⟩ rfl rfl rfl rfl).2.1⟩

/-- Counterexample to C3 as stated.  With `Init` and `Start` ok and a callback
thread count of 2, `Spin` returns 0 but its calls include the construction of
the dispatcher between `Init` and `Start`, so the trace is not the six calls of
the claim.  With a count of 1, `Spin` does not return 0 when the flags file
cannot be opened (the `CHECK` in `ExportFlags` terminates the process before
the dispatch step) or when no shutdown request arrives (it stays in
`ros::spin()`). -/
theorem Spin_success_counterexample :
    ((⟨"planner", ⟨true, "OK"⟩, ⟨true, "OK"⟩, 2⟩ : ApolloApp).Init.ok = true ∧
      (⟨"planner", ⟨true, "OK"⟩, ⟨true, "OK"⟩, 2⟩ : ApolloApp).Start.ok = true ∧
      (⟨"planner", ⟨true, "OK"⟩, ⟨true, "OK"⟩, 2⟩ : ApolloApp).callback_thread_num_ ≥ 1 ∧
      (Spin plannerEnv ⟨"planner", ⟨true, "OK"⟩, ⟨true, "OK"⟩, 2⟩).outcome = .returned 0 ∧
      (Spin plannerEnv ⟨"planner", ⟨true, "OK"⟩, ⟨true, "OK"⟩, 2⟩).out.trace =
        [.Init, .newAsyncSpinner 2, .Start, .ExportFlags, .spinnerStart, .waitForShutdown,
          .Stop] ∧
      (Spin plannerEnv ⟨"planner", ⟨true, "OK"⟩, ⟨true, "OK"⟩, 2⟩).out.trace ≠
        [.Init, .Start, .ExportFlags, .spinnerStart, .waitForShutdown, .Stop]) ∧
    (planner.Init.ok = true ∧ planner.Start.ok = true ∧ planner.callback_thread_num_ ≥ 1 ∧
      (Spin ⟨"/tmp/logs", plannerFlags, fun _ => false, true⟩ planner).outcome = .aborted ∧
      (Spin ⟨"/tmp/logs", plannerFlags, fun _ => false, true⟩ planner).out.trace =
        [.Init, .Start, .ExportFlags] ∧
      (Spin ⟨"/tmp/logs", plannerFlags, fun _ => true, false⟩ planner).outcome = .blocked ∧
      (Spin ⟨"/tmp/logs", plannerFlags, fun _ => true, false⟩ planner).out.trace =
        [.Init, .Start, .ExportFlags, .rosSpin]) := by
  decide

/-- C9 (amended): in every run of `Spin` in which `Init` succeeds: if the callback
thread count n is > 1, an asynchronous dispatcher sized exactly n is
constructed, once, right after `Init` and before `Start`; it is started only if
`Start` succeeds, and it is started, once and after `ExportFlags`, when `Start`
succeeds and the flags file can be opened; the blocking single-threaded spin is
never entered.  If n is not > 1, no asynchronous dispatcher is constructed or
started, and when `Start` succeeds and the flags file can be opened, the
blocking single-threaded spin is entered exactly once, after `ExportFlags`. -/
theorem Spin_dispatch (env : Env) (app : ApolloApp) (h1 : app.Init.ok = true) :
    (app.callback_thread_num_ > 1 →
      (∃ rest, (Spin env app).out.trace =
        [.Init, .newAsyncSpinner app.callback_thread_num_, .Start] ++ rest) ∧
      (∀ k, Effect.newAsyncSpinner k ∈ (Spin env app).out.trace →
        k = app.callback_thread_num_) ∧
      (Spin env app).out.trace.count (.newAsyncSpinner app.callback_thread_num_) = 1 ∧
      (Effect.spinnerStart ∈ (Spin env app).out.trace → app.Start.ok = true) ∧
      (app.Start.ok = true → env.can_open (export_file env app) = true →
        (Spin env app).out.trace.count Effect.spinnerStart = 1 ∧
        List.Sublist [Effect.ExportFlags, Effect.spinnerStart] (Spin env app).out.trace) ∧
      Effect.rosSpin ∉ (Spin env app).out.trace) ∧
    (¬ app.callback_thread_num_ > 1 →
      (∀ k, Effect.newAsyncSpinner k ∉ (Spin env app).out.trace) ∧
      Effect.spinnerStart ∉ (Spin env app).out.trace ∧
      (app.Start.ok = true → env.can_open (export_file env app) = true →
        (Spin env app).out.trace.count Effect.rosSpin = 1 ∧
        List.Sublist [Effect.ExportFlags, Effect.rosSpin] (Spin env app).out.trace)) := by
  cases h2 : app.Start.ok
  · rw [Spin_Start_failed_eq env app h1 h2]
    constructor <;> intro hn <;> simp [hn]
  · rw [Spin_started_eq env app h1 h2]
    by_cases ho : env.can_open (export_file env app) = false <;>
    by_cases hs : env.shutdown = false <;>
    constructor <;> intro hn <;> simp [hn, ho, hs] <;> (try simp_all) <;>
      exact .cons _ (.cons _ (.cons _ (.cons₂ _ (.cons₂ _ (List.nil_sublist _)))))

/-- Witness of C9: the planner scenario with four callback threads and with one. -/
theorem Spin_dispatch_witness :
    (Spin plannerEnv ⟨"planner", ⟨true, "OK"⟩, ⟨true, "OK"⟩, 4⟩).out.trace.count
        (.newAsyncSpinner 4) = 1 ∧
      Effect.rosSpin ∉ (Spin plannerEnv ⟨"planner", ⟨true, "OK"⟩, ⟨true, "OK"⟩, 4⟩).out.trace ∧
      (Spin plannerEnv planner).out.trace.count Effect.rosSpin = 1 :=
  ⟨((Spin_dispatch plannerEnv ⟨"planner", ⟨true, "OK"⟩, ⟨true, "OK"⟩, 4⟩ rfl).1
      (by decide)).2.2.1,
    ((Spin_dispatch plannerEnv ⟨"planner", ⟨true, "OK"⟩, ⟨true, "OK"⟩, 4⟩ rfl).1
      (by decide)).2.2.2.2.2,
    (((Spin_dispatch plannerEnv planner rfl).2 (by decide)).2.2 rfl rfl).1⟩

/-- Counterexample to C9 as stated: `Init` and `Start` succeed and the callback
thread count is 1, but the flags file cannot be opened; the `CHECK` in
`ExportFlags` terminates the process and the blocking single-threaded spin is
never entered. -/
theorem Spin_dispatch_counterexample :
    planner.Init.ok = true ∧ planner.Start.ok = true ∧ planner.callback_thread_num_ = 1 ∧
      (Spin ⟨"/tmp/logs", plannerFlags, fun _ => false, true⟩ planner).outcome = .aborted ∧
      (Spin ⟨"/tmp/logs", plannerFlags, fun _ => false, true⟩ planner).out.trace =
        [.Init, .Start, .ExportFlags] ∧
      (Spin ⟨"/tmp/logs", plannerFlags, fun _ => false, true⟩ planner).out.trace.count
        Effect.rosSpin = 0 := by
  decide

/-! ## `ExportFlags` -/

/-- C4: for every log directory L, application name N and list of flags F
returned by the flag registry, when the file L ++ "/" ++ N ++ ".flags" can be
opened, `ExportFlags` returns and writes to that path exactly the
concatenation, in the order of F, of one block
"# <type>, default=<default_value>\n# <description>\n--<name>=<current_value>\n\n"
per flag; it writes no other file, and the empty list yields an empty file. -/
theorem ExportFlags_writes_blocks (env : Env) (app : ApolloApp)
    (ho : env.can_open (env.FLAGS_log_dir ++ "/" ++ app.Name ++ ".flags") = true) :
    (ExportFlags env app).outcome = .returned () ∧
      (ExportFlags env app).out.files =
        [(env.FLAGS_log_dir ++ "/" ++ app.Name ++ ".flags", flagBlocks env.GetAllFlags)] ∧
      (env.GetAllFlags = [] →
        (ExportFlags env app).out.files =
          [(env.FLAGS_log_dir ++ "/" ++ app.Name ++ ".flags", "")]) := by
  rw [ExportFlags_eq env app ho]
  refine ⟨rfl, rfl, fun h => ?_⟩
  rw [h]
  rfl

/-- Witness of C4: the application "planner" with log directory "/tmp/logs" and
the flags max_speed (double, default 30.0, current 45.0, "cap speed") and debug
(bool, default false, current true, "enable debug"). -/
theorem ExportFlags_writes_blocks_witness :
    (ExportFlags plannerEnv planner).outcome = .returned () ∧
      (ExportFlags plannerEnv planner).out.files =
        [("/tmp/logs/planner.flags",
          "# double, default=30.0\n# cap speed\n--max_speed=45.0\n\n# bool, default=false\n# enable debug\n--debug=true\n\n")] :=
  ⟨(ExportFlags_writes_blocks plannerEnv planner rfl).1,
    (ExportFlags_writes_blocks plannerEnv planner rfl).2.1.trans (by decide)⟩

/-- C5 (amended): when the flags file can be opened and none of the five fields of
any flag holds a newline character, the file `ExportFlags` writes consists, flag
by flag in the order of the list, of exactly three lines followed by one blank
line: the line "# <type>, default=<default_value>", the line "# <description>"
and the line "--<name>=<current_value>"; the block streamed for each single flag
has these four lines, and the file for k flags has exactly 4*k lines. -/
theorem ExportFlags_lines (env : Env) (app : ApolloApp)
    (ho : env.can_open (export_file env app) = true)
    (hf : ∀ flag ∈ env.GetAllFlags, flag.singleLine) :
    (∃ content, (ExportFlags env app).out.files = [(export_file env app, content)] ∧
      textLines content.data = env.GetAllFlags.flatMap flagLines ∧
      (textLines content.data).length = 4 * env.GetAllFlags.length) ∧
    (∀ flag ∈ env.GetAllFlags, textLines (exportFlag "" flag).data = flagLines flag) := by
  constructor
  · refine ⟨flagBlocks env.GetAllFlags, by rw [ExportFlags_eq env app ho], ?_, ?_⟩
    · exact textLines_flagBlocks _ hf
    · rw [textLines_flagBlocks _ hf, length_flatMap_flagLines]
  · intro flag hflag
    have h := textLines_flagBlock flag (hf flag hflag) []
    rw [exportFlag_eq, String.empty_append]
    simpa [textLines] using h

/-- Witness of C5: the two flags of the planner scenario give a file of eight lines. -/
theorem ExportFlags_lines_witness :
    (∃ content, (ExportFlags plannerEnv planner).out.files =
        [(export_file plannerEnv planner, content)] ∧
      textLines content.data = plannerFlags.flatMap flagLines ∧
      (textLines content.data).length = 4 * plannerFlags.length) ∧
    (∀ flag ∈ plannerFlags, textLines (exportFlag "" flag).data = flagLines flag) :=
  ExportFlags_lines plannerEnv planner rfl (by decide)

/-- Counterexample to C5 as stated: a single flag whose description runs over
two lines.  The file written for it has five lines, not four; its second line
holds only the first half of the description and its third line is the second
half of the description, not the `--name=current_value` line. -/
theorem ExportFlags_lines_counterexample :
    (ExportFlags ⟨"/tmp/logs", [⟨"map_dir", "string", "Directory of maps.\nMust exist.",
        "/data", ""⟩], fun _ => true, true⟩ planner).out.files =
      [("/tmp/logs/planner.flags",
        "# string, default=\n# Directory of maps.\nMust exist.\n--map_dir=/data\n\n")] ∧
    textLines
        ("# string, default=\n# Directory of maps.\nMust exist.\n--map_dir=/data\n\n").data =
      ["# string, default=".data, "# Directory of maps.".data, "Must exist.".data,
        "--map_dir=/data".data, []] ∧
    (textLines
        ("# string, default=\n# Directory of maps.\nMust exist.\n--map_dir=/data\n\n").data).length
      ≠ 4 * 1 := by
  decide

end apollo.common
